import Mathlib

/-!
Shallow embedding of the SCPI control-plane server of wfmserver
(src/src/wfmserver/ScpiServerThread.cpp), together with theorems checking the
natural-language specification of the command parser, the command dispatcher
and the trigger arm/disarm state machine against this code.

Modelling conventions:
* C++ `size_t` / `uint64_t` values are `Nat` (with an explicit wrap `% 2^64`
  where a conversion from a signed or wider value occurs), `int64_t` values are
  `Int` (division modelled by `Int.tdiv`, the C++ truncating division), and
  `double` values are idealised as `ℚ`.
* The global mutable variables of the C++ file become the fields of
  `ServerState`; the free functions `Start`, `Stop` and `ParseScpiLine` and the
  body of the per-line command loop of `ScpiServerThread` become functions on
  that state.
* Calls into the dwf device library return a success flag that the C++ code
  only ever uses for error logging.  The device is modelled by a `Device`
  record holding one success flag per call plus the data the device reports
  back (the read-back trigger position, the frequency range).  Log output is
  returned alongside the new state, never stored in it.
* The C++ expression `g_triggerDelay / g_sampleInterval` in `Start` is an
  `int64_t` division that is undefined behaviour when `g_sampleInterval` is 0;
  the embedding records that event in the instrumentation field `divByZero`
  (Lean itself returns 0 for division by zero).
-/

namespace Wfm

/-! ## Character and number helpers (C library functions used by the code) -/

/-- C `isspace` on the ASCII characters the protocol can carry. -/
def cIsSpace (c : Char) : Bool :=
  c == ' ' || c == '\t' || c == '\n' || c == '\x0b' || c == '\x0c' || c == '\r'

/-- Numeric value of a list of decimal digit characters (most significant first). -/
def digitsToNat (ds : List Char) : Nat :=
  ds.foldl (fun acc c => acc * 10 + (c.toNat - 48)) 0

/-- Longest decimal-digit prefix of a character list, as a number.
Models the digit-consuming core of `std::stoi` / `std::stoull`.
(`std::stoi` throws when no digits are present; no command path exercised by a
claim reaches that case, and the model returns 0 there.) -/
def digitsPrefixVal (cs : List Char) : Nat :=
  digitsToNat (cs.takeWhile Char.isDigit)

/-- Model of `std::stoi` applied to the tail of a channel subject: an optional
sign followed by decimal digits. -/
def stoiChars (cs : List Char) : Int :=
  match cs with
  | '-' :: rest => -(digitsPrefixVal rest : Int)
  | '+' :: rest => (digitsPrefixVal rest : Int)
  | _ => (digitsPrefixVal cs : Int)

/-- Model of `std::stoull` on a string argument. -/
def stoullNat (s : String) : Nat :=
  digitsPrefixVal s.data

/-- Model of `std::stod` on a decimal argument (optional sign, integer part,
optional fractional part; exponents are not exercised by the protocol). -/
def stodQ (s : String) : ℚ :=
  let core : List Char → ℚ := fun cs =>
    let ds := cs.takeWhile Char.isDigit
    let rest := cs.dropWhile Char.isDigit
    let ip : ℚ := (digitsToNat ds : ℚ)
    match rest with
    | '.' :: rest2 =>
        let fs := rest2.takeWhile Char.isDigit
        ip + (digitsToNat fs : ℚ) / ((10 : ℚ) ^ fs.length)
    | _ => ip
  match s.data with
  | '-' :: rest => -(core rest)
  | '+' :: rest => core rest
  | cs => core cs

/-- Conversion of an `int64_t`/`int` value to C++ `size_t` (wrap modulo `2^64`). -/
def toSizeT (i : Int) : Nat :=
  (i % (2 ^ 64 : Int)).toNat

/-- Conversion of an unsigned value to C++ `int64_t` (wrap modulo `2^64`, then
reinterpret the top half as negative). -/
def toInt64 (n : Nat) : Int :=
  let m : Nat := n % 2 ^ 64
  if m < 2 ^ 63 then (m : Int) else (m : Int) - 2 ^ 64

/-- Conversion of a value to C++ `uint64_t`/`size_t`. -/
def toUInt64 (n : Nat) : Nat :=
  n % 2 ^ 64

/-- C++ `int64_t` division (truncation toward zero; divisor 0 is undefined
behaviour in C++, recorded separately by the caller). -/
def cppDivInt (a b : Int) : Int :=
  Int.tdiv a b

/-- Modelled from the spec: the constant `FS_PER_SECOND` comes from the
`wfmserver.h` header, which is not part of the sources; the spec gives
`sampleIntervalFs = 1e15/hz`. -/
def FS_PER_SECOND : Int := 10 ^ 15

/-- Modelled from the spec: the constant `SECONDS_PER_FS` from the missing
header, the reciprocal of `FS_PER_SECOND`. -/
def SECONDS_PER_FS : ℚ := 1 / 10 ^ 15

/-! ## ParseScpiLine -/

/-- The four output fields of `ParseScpiLine` plus the loop locals `tmp` and
`reading_cmd` of its character loop. -/
structure ParseSt where
  subject : String
  cmd : String
  query : Bool
  args : List String
  tmp : List Char
  readingCmd : Bool
deriving Repr, DecidableEq

/-- State of `ParseScpiLine` after the initial field reset. -/
def parseInit : ParseSt :=
  { subject := "", cmd := "", query := false, args := [], tmp := [], readingCmd := true }

/-- One iteration of the character loop of `ParseScpiLine`. -/
def parseStep (st : ParseSt) (c : Char) : ParseSt :=
  if c = ':' ∧ st.subject = "" then
    { st with subject := String.mk st.tmp, tmp := [] }
  else if c = '?' then
    { st with query := true }
  else if ¬(cIsSpace c = true ∧ st.cmd = "") ∧ ¬(c = ',') then
    { st with tmp := st.tmp ++ [c] }
  else if st.tmp = [] then
    st
  else if st.readingCmd = true then
    { st with cmd := String.mk st.tmp, readingCmd := false, tmp := [] }
  else
    { st with args := st.args ++ [String.mk st.tmp], readingCmd := false, tmp := [] }

/-- The post-loop fixup of `ParseScpiLine`: leftover accumulated text becomes
the command if none was seen yet, otherwise a further argument. -/
def parseFinish (st : ParseSt) : ParseSt :=
  if st.tmp = [] then st
  else if st.cmd = "" then { st with cmd := String.mk st.tmp }
  else { st with args := st.args ++ [String.mk st.tmp] }

/-- `ParseScpiLine`: reset the fields, run the character loop, apply the
leftover fixup. -/
def ParseScpiLine (line : String) : ParseSt :=
  parseFinish (List.foldl parseStep parseInit line.data)

/-! ## Device model -/

/-- One success flag per dwf call the command loop makes, plus the data the
device reports back.  The C++ code uses the success flags only to emit
`LogError` lines. -/
structure Device where
  okChanEnable : Bool
  okChanOffset : Bool
  okChanAtten : Bool
  okChanRange : Bool
  okFreqSet : Bool
  okBufSize : Bool
  okTrigType : Bool
  okTrigCond : Bool
  okTrigLevel : Bool
  okTrigSource : Bool
  okTrigTimeout : Bool
  okTrigChannel : Bool
  okTrigPosSet : Bool
  okTrigPosGet : Bool
  trigPosActual : ℚ → ℚ
  minFreq : ℚ
  maxFreq : ℚ

/-- A device on which every call succeeds and the programmed trigger position
reads back exactly. -/
def devOk : Device :=
  { okChanEnable := true, okChanOffset := true, okChanAtten := true,
    okChanRange := true, okFreqSet := true, okBufSize := true,
    okTrigType := true, okTrigCond := true, okTrigLevel := true,
    okTrigSource := true, okTrigTimeout := true, okTrigChannel := true,
    okTrigPosSet := true, okTrigPosGet := true,
    trigPosActual := fun q => q, minFreq := 1000, maxFreq := 100000000 }

/-- A device on which every call fails. -/
def devFail : Device :=
  { okChanEnable := false, okChanOffset := false, okChanAtten := false,
    okChanRange := false, okFreqSet := false, okBufSize := false,
    okTrigType := false, okTrigCond := false, okTrigLevel := false,
    okTrigSource := false, okTrigTimeout := false, okTrigChannel := false,
    okTrigPosSet := false, okTrigPosGet := false,
    trigPosActual := fun q => q, minFreq := 0, maxFreq := 0 }

/-! ## Server state -/

/-- The global mutable state of ScpiServerThread.cpp.  `g_channelOn` and
`g_channelOnDuringArm` are `std::map<size_t,bool>`, whose lookup yields `false`
for absent keys; they are modelled as total functions `Nat → Bool`.
`divByZero` is instrumentation: it records that an `int64_t` division with a
zero divisor (undefined behaviour in C++) was executed. -/
structure ServerState where
  channelOn : Nat → Bool
  memDepth : Nat
  sampleInterval : Int
  channelOnDuringArm : Nat → Bool
  sampleIntervalDuringArm : Int
  captureMemDepth : Nat
  triggerArmed : Bool
  triggerOneShot : Bool
  memDepthChanged : Bool
  triggerVoltage : ℚ
  triggerChannel : Nat
  triggerSampleIndex : Nat
  triggerDelay : Int
  triggerDeltaSec : ℚ
  divByZero : Bool

/-- The state at process start: C++ zero-initialises the globals that carry no
explicit initialiser; `g_memDepth` starts at 1000000. -/
def initState : ServerState :=
  { channelOn := fun _ => false, memDepth := 1000000, sampleInterval := 0,
    channelOnDuringArm := fun _ => false, sampleIntervalDuringArm := 0,
    captureMemDepth := 0, triggerArmed := false, triggerOneShot := false,
    memDepthChanged := false, triggerVoltage := 0, triggerChannel := 0,
    triggerSampleIndex := 0, triggerDelay := 0, triggerDeltaSec := 0,
    divByZero := false }

/-- Pointwise update of a channel map (a `std::map` element assignment). -/
def mapSet (f : Nat → Bool) (i : Nat) (v : Bool) : Nat → Bool :=
  fun j => if j = i then v else f j

/-- The `Start(bool force)` free function: copy the live configuration into
the arm snapshot, derive the trigger sample index, program the device
(acquisition mode and configure, results unchecked in C++) and set the armed
flag.  The body never reads `force`; the enabled-channel guard lives in the
START/SINGLE handler. -/
def Start (s : ServerState) (force : Bool) : ServerState :=
  { s with
    captureMemDepth := s.memDepth,
    channelOnDuringArm := s.channelOn,
    sampleIntervalDuringArm := s.sampleInterval,
    triggerSampleIndex := toSizeT (cppDivInt s.triggerDelay s.sampleInterval),
    divByZero := s.divByZero || decide (s.sampleInterval = 0),
    triggerArmed := true }

/-- The `Stop()` free function: reconfigure the device to idle (result
unchecked in C++) and clear the armed flag.  It does not touch
`g_triggerOneShot`. -/
def Stop (s : ServerState) : ServerState :=
  { s with triggerArmed := false }

/-- The `anyChannels` loop of the START/SINGLE handler: does any of the first
`mc` channels have its enable flag set? -/
def anyChannelOn (mc : Nat) (s : ServerState) : Bool :=
  (List.range mc).any fun i => s.channelOn i

/-- The channel-id derivation at the top of the command loop:
`channelId = min(size_t(stoi(subject.c_str()+1) - 1), g_numAnalogInChannels)`
when the subject starts with `c`/`C`, else 0.  (`std::string::operator[]` of an
empty string reads the terminating NUL, which is not `C`.) -/
def extractChannelId (subject : String) (mc : Nat) : Nat :=
  match subject.data with
  | [] => 0
  | c :: rest => if c.toUpper = 'C' then min (toSizeT (stoiChars rest - 1)) mc else 0

/-- The absolute trigger buffer position computed by the TRIG:DELAY handler:
`offset_samples = g_memDepth/2` (unsigned), `offset_fs = offset_samples *
g_sampleInterval`, `position_fs = offset_fs - g_triggerDelay` (all `int64_t`). -/
def trigDelayPositionFs (memDepth : Nat) (sampleInterval delay : Int) : Int :=
  ((memDepth / 2 : Nat) : Int) * sampleInterval - delay

/-- The trigger source channel stored by the TRIG:SOU handler:
`args[0][1] - '1'` assigned to a `size_t` (wraps when negative; index 1 of a
shorter string reads NUL). -/
def trigSourceChannel (arg : String) : Nat :=
  toSizeT (((arg.data.getD 1 (Char.ofNat 0)).toNat : Int) - 49)

/-! ## Command dispatch -/

/-- Replies sent over the control socket in answer to queries.  The textual
formatting of the reply (identification fields from main.cpp, `to_string` of
doubles) is outside the embedded core; each constructor carries the numeric
payload the handler computes. -/
inductive Reply where
  | idn
  | chans (n : Nat)
  | rates (vals : List ℚ)
  | depths
deriving Repr

/-- The 1-2-5 decade loop of the RATES? handler: starting from the maximum
device frequency, emit the intervals `1e15/f`, `1e15/(f/2)`, `1e15/(f/5)` and
divide the frequency by 10, until below the floor.  The C++ loop terminates
because the frequency shrinks by 10x per iteration toward a positive floor;
the fuel argument bounds the decade count and any fuel large enough for the
device range yields the same list. -/
def ratesLoop : Nat → ℚ → ℚ → List ℚ
  | 0, _, _ => []
  | Nat.succ fuel, freq, minF =>
    if minF ≤ freq then
      ((FS_PER_SECOND : ℚ) / freq) :: ((FS_PER_SECOND : ℚ) / (freq / 2)) ::
        ((FS_PER_SECOND : ℚ) / (freq / 5)) :: ratesLoop fuel (freq / 10) minF
    else []

/-- The RATES? reply: device min frequency capped below at 1 kHz. -/
def ratesReply (dev : Device) : List ℚ :=
  ratesLoop 256 dev.maxFreq (max dev.minFreq 1000)

/-- Result of dispatching one parsed line: the new state, the log lines
emitted, the replies sent, and whether the command loop exits (EXIT). -/
structure StepResult where
  state : ServerState
  log : List String
  replies : List Reply
  doExit : Bool

/-- Error log produced by one device call: one `LogError` line on failure. -/
def chk (ok : Bool) (msg : String) : List String :=
  if ok then [] else [msg]

/-- The re-arm epilogue shared by the mutating handlers:
`if(g_triggerArmed) Start();`. -/
def rearm (s : ServerState) (lg : List String) : StepResult :=
  if s.triggerArmed = true then
    { state := Start s false, log := lg, replies := [], doExit := false }
  else
    { state := s, log := lg, replies := [], doExit := false }

/-- The body of the command loop of `ScpiServerThread` for one parsed line,
after the channel-id derivation: the query branch, then the if/else chain of
mutating command handlers, in source order. -/
def dispatch (dev : Device) (mc : Nat) (s : ServerState) (subject cmd : String)
    (query : Bool) (args : List String) (channelId : Nat) : StepResult :=
  if query = true then
    if cmd = "*IDN" then
      { state := s, log := [], replies := [Reply.idn], doExit := false }
    else if cmd = "CHANS" then
      { state := s, log := [], replies := [Reply.chans mc], doExit := false }
    else if cmd = "RATES" then
      { state := s, log := [], replies := [Reply.rates (ratesReply dev)], doExit := false }
    else if cmd = "DEPTHS" then
      { state := s, log := [], replies := [Reply.depths], doExit := false }
    else
      { state := s, log := ["Unrecognized query received"], replies := [], doExit := false }
  else if cmd = "EXIT" then
    { state := s, log := [], replies := [], doExit := true }
  else if cmd = "ON" then
    rearm { s with channelOn := mapSet s.channelOn channelId true, memDepthChanged := true }
      (chk dev.okChanEnable "FDwfAnalogInChannelEnableSet failed")
  else if cmd = "OFF" then
    -- Faithful to the source: the OFF handler stores true into g_channelOn
    -- (the device call, in contrast, is passed false).
    rearm { s with channelOn := mapSet s.channelOn channelId true, memDepthChanged := true }
      (chk dev.okChanEnable "FDwfAnalogInChannelEnableSet failed")
  else if cmd = "OFFS" ∧ args.length = 1 then
    rearm s (chk dev.okChanOffset "FDwfAnalogInChannelOffsetSet failed")
  else if cmd = "ATTEN" ∧ args.length = 1 then
    rearm s (chk dev.okChanAtten "FDwfAnalogInChannelAttenuationSet failed")
  else if cmd = "RANGE" ∧ args.length = 1 then
    rearm s (chk dev.okChanRange "FDwfAnalogInChannelRangeSet failed")
  else if cmd = "RATE" ∧ args.length = 1 then
    let rate := toInt64 (stoullNat (args.getD 0 ""))
    rearm { s with sampleInterval := cppDivInt FS_PER_SECOND rate,
                   divByZero := s.divByZero || decide (rate = 0) }
      (chk dev.okFreqSet "FDwfAnalogInFrequencySet failed")
  else if cmd = "DEPTH" ∧ args.length = 1 then
    rearm { s with memDepth := toUInt64 (stoullNat (args.getD 0 "")), memDepthChanged := true }
      (chk dev.okBufSize "FDwfAnalogInBufferSizeSet failed")
  else if cmd = "START" ∨ cmd = "SINGLE" then
    if s.triggerArmed = true then
      { state := s, log := ["Ignoring START command because trigger is already armed"],
        replies := [], doExit := false }
    else if anyChannelOn mc s = false then
      { state := s, log := ["Ignoring START command because no channels are active"],
        replies := [], doExit := false }
    else
      { state := { Start s false with triggerOneShot := decide (cmd = "SINGLE") },
        log := [], replies := [], doExit := false }
  else if cmd = "FORCE" then
    { state := Start s true, log := [], replies := [], doExit := false }
  else if cmd = "STOP" then
    { state := Stop s, log := [], replies := [], doExit := false }
  else if subject = "TRIG" then
    if cmd = "MODE" ∧ args.length = 1 then
      -- No mutex and no re-arm in this handler in the source.
      if args.getD 0 "" = "EDGE" then
        { state := s, log := chk dev.okTrigType "FDwfAnalogInTriggerTypeSet failed",
          replies := [], doExit := false }
      else
        { state := s, log := ["Unknown trigger mode"], replies := [], doExit := false }
    else if cmd = "EDGE:DIR" ∧ args.length = 1 then
      rearm s (chk dev.okTrigCond "FDwfAnalogInTriggerConditionSet failed")
    else if cmd = "LEV" ∧ args.length = 1 then
      rearm { s with triggerVoltage := stodQ (args.getD 0 "") }
        (chk dev.okTrigLevel "FDwfAnalogInTriggerLevelSet failed")
    else if cmd = "SOU" ∧ args.length = 1 then
      rearm { s with triggerChannel := trigSourceChannel (args.getD 0 "") }
        (chk dev.okTrigSource "FDwfAnalogInTriggerSourceSet failed" ++
         chk dev.okTrigTimeout "FDwfAnalogInTriggerAutoTimeoutSet failed" ++
         chk dev.okTrigChannel "FDwfAnalogInTriggerChannelSet failed")
    else if cmd = "DELAY" ∧ args.length = 1 then
      let delay := toInt64 (stoullNat (args.getD 0 ""))
      let posFs := trigDelayPositionFs s.memDepth s.sampleInterval delay
      let reqSec : ℚ := (posFs : ℚ) * SECONDS_PER_FS
      let actSec : ℚ := dev.trigPosActual reqSec
      rearm { s with triggerDelay := delay, triggerDeltaSec := actSec - reqSec }
        (chk dev.okTrigPosSet "FDwfAnalogInTriggerPositionSet failed" ++
         chk dev.okTrigPosGet "FDwfAnalogInTriggerPositionGet failed")
    else
      { state := s, log := ["Unrecognized trigger command received"], replies := [], doExit := false }
  else
    { state := s, log := ["Unrecognized command received"], replies := [], doExit := false }

/-- One iteration of the command loop on a received line: parse it, derive the
channel id, dispatch. -/
def processLine (dev : Device) (mc : Nat) (s : ServerState) (line : String) : StepResult :=
  let p := ParseScpiLine line
  dispatch dev mc s p.subject p.cmd p.query p.args (extractChannelId p.subject mc)

/-- The command loop over a list of received lines, stopping at EXIT. -/
def runLines (dev : Device) (mc : Nat) : ServerState → List String → ServerState
  | s, [] => s
  | s, l :: ls =>
    let r := processLine dev mc s l
    if r.doExit then r.state else runLines dev mc r.state ls

/-! ## Helper lemmas -/

/-- Characters that the `ParseScpiLine` tokenizer treats as plain text:
not a colon, not a question mark, not a comma, not whitespace. -/
def plainChar (c : Char) : Prop :=
  ¬(c = ':') ∧ ¬(c = '?') ∧ ¬(c = ',') ∧ cIsSpace c = false

instance (c : Char) : Decidable (plainChar c) := by
  unfold plainChar; infer_instance

lemma parseStep_plain (st : ParseSt) (c : Char) (h : plainChar c) :
    parseStep st c = { st with tmp := st.tmp ++ [c] } := by
  obtain ⟨h1, h2, h3, h4⟩ := h
  unfold parseStep
  rw [if_neg fun hc => h1 hc.1, if_neg h2,
      if_pos (And.intro (fun hc => by simp [h4] at hc) h3)]

lemma foldl_parseStep_plain (cs : List Char) (st : ParseSt)
    (h : ∀ c ∈ cs, plainChar c) :
    List.foldl parseStep st cs = { st with tmp := st.tmp ++ cs } := by
  induction cs generalizing st with
  | nil => simp
  | cons c rest ih =>
    rw [List.foldl_cons, parseStep_plain st c (h c (List.mem_cons_self c rest)),
        ih _ (fun x hx => h x (List.mem_cons_of_mem c hx))]
    simp

lemma parseStep_colon (st : ParseSt) (h : st.subject = "") :
    parseStep st ':' = { st with subject := String.mk st.tmp, tmp := [] } := by
  unfold parseStep
  rw [if_pos ⟨rfl, h⟩]

lemma parseStep_quest (st : ParseSt) :
    parseStep st '?' = { st with query := true } := by
  unfold parseStep
  rw [if_neg (fun hc => absurd hc.1 (by decide)), if_pos rfl]

lemma rearm_state_eq (s1 : ServerState) (lg lg2 : List String) :
    (rearm s1 lg).state = (rearm s1 lg2).state := by
  unfold rearm
  split_ifs <;> rfl

lemma rearm_oneShot (s1 : ServerState) (lg : List String) :
    (rearm s1 lg).state.triggerOneShot = s1.triggerOneShot := by
  unfold rearm
  split_ifs <;> rfl

lemma dispatch_query_state (dev : Device) (mc : Nat) (s : ServerState)
    (subject cmd : String) (args : List String) (ch : Nat) :
    (dispatch dev mc s subject cmd true args ch).state = s := by
  unfold dispatch
  rw [if_pos rfl]
  split_ifs <;> rfl

/-! ## Claim C1 -/

/-- C1: the claim says processing OFF sets the channel enable flag to false
and that OFF on an already-off channel leaves the channel map unchanged.  The
code does the opposite: the OFF handler stores `true` into `g_channelOn`
(while passing `false` to the device), so processing `C1:OFF` from the initial
state (channel 0 off) flips the in-memory enable flag to `true`.  The dirty
flag is set as claimed. -/
theorem claim_C1_off_enable_bug :
    initState.channelOn 0 = false ∧
    (processLine devOk 4 initState "C1:OFF").state.channelOn 0 = true ∧
    (processLine devOk 4 initState "C1:OFF").state.memDepthChanged = true := by
  decide

/-! ## Claim C2 -/

/-- C2: the claim says the derived channelId is `min(n-1, maxChannels-1)`,
always in range.  The code clamps with `min(n-1, g_numAnalogInChannels)`,
i.e. to `maxChannels` itself: subject `C99` on a 4-channel device yields
channelId 4, not the claimed 3, one past the last valid index. -/
theorem claim_C2_clamp_bug :
    extractChannelId "C99" 4 = 4 ∧
    extractChannelId "C99" 4 ≠ min (99 - 1) (4 - 1) := by
  decide

/-! ## Claim C9 -/

/-- C9: `g_sampleInterval` is 0 at process start, and the Arm sequence
(`Start`) divides `g_triggerDelay` by `g_sampleInterval` without a zero guard;
processing FORCE from the initial state (and likewise ON followed by START)
executes that division with a zero divisor. -/
theorem claim_C9_div_by_zero :
    initState.sampleInterval = 0 ∧
    initState.divByZero = false ∧
    (processLine devOk 2 initState "FORCE").state.divByZero = true ∧
    (runLines devOk 2 initState ["C1:ON", "START"]).divByZero = true := by
  decide

/-! ## Claim C6 -/

/-- C6 counterexample: the claim says the line `*IDN?` parses to
command `IDN`; the parser keeps the asterisk, producing command `*IDN`
(the dispatcher accordingly compares against `*IDN`). -/
theorem claim_C6_counterexample : (ParseScpiLine "*IDN?").cmd ≠ "IDN" := by
  decide

/-- C6 (amended): for every line of the form `SUBJECT:CMD?` whose subject and
command are free of the delimiter characters (colon, question mark, comma,
whitespace), the parser yields `query = true`, the given subject and command,
and no arguments; `TRIG:LEV 1.5` parses to subject `TRIG`, command `LEV`,
args `["1.5"]`, no query; and `*IDN?` parses to subject `""`, command `*IDN`
(not `IDN` as originally claimed), query set. -/
theorem claim_C6_parse (S C : List Char)
    (hS : ∀ c ∈ S, plainChar c) (hC : ∀ c ∈ C, plainChar c) :
    ((ParseScpiLine (String.mk (S ++ ':' :: C ++ ['?']))).query = true ∧
     (ParseScpiLine (String.mk (S ++ ':' :: C ++ ['?']))).subject = String.mk S ∧
     (ParseScpiLine (String.mk (S ++ ':' :: C ++ ['?']))).cmd = String.mk C ∧
     (ParseScpiLine (String.mk (S ++ ':' :: C ++ ['?']))).args = []) ∧
    ((ParseScpiLine "TRIG:LEV 1.5").subject = "TRIG" ∧
     (ParseScpiLine "TRIG:LEV 1.5").cmd = "LEV" ∧
     (ParseScpiLine "TRIG:LEV 1.5").args = ["1.5"] ∧
     (ParseScpiLine "TRIG:LEV 1.5").query = false) ∧
    ((ParseScpiLine "*IDN?").subject = "" ∧
     (ParseScpiLine "*IDN?").cmd = "*IDN" ∧
     (ParseScpiLine "*IDN?").query = true) := by
  refine ⟨?_, by decide, by decide⟩
  have e1 : List.foldl parseStep parseInit S
      = { subject := "", cmd := "", query := false, args := [],
          tmp := S, readingCmd := true } := by
    rw [foldl_parseStep_plain S parseInit hS]
    rfl
  have e2 : List.foldl parseStep parseInit (S ++ ':' :: C)
      = { subject := String.mk S, cmd := "", query := false, args := [],
          tmp := C, readingCmd := true } := by
    rw [List.foldl_append, e1, List.foldl_cons, parseStep_colon _ rfl,
        foldl_parseStep_plain C _ hC]
    rfl
  have hrun : List.foldl parseStep parseInit (S ++ ':' :: C ++ ['?'])
      = { subject := String.mk S, cmd := "", query := true, args := [],
          tmp := C, readingCmd := true } := by
    rw [List.foldl_append, e2, List.foldl_cons, parseStep_quest]
    rfl
  have hfull : ParseScpiLine (String.mk (S ++ ':' :: C ++ ['?']))
      = parseFinish { subject := String.mk S, cmd := "", query := true,
                      args := [], tmp := C, readingCmd := true } := by
    unfold ParseScpiLine
    rw [show (String.mk (S ++ ':' :: C ++ ['?'])).data = S ++ ':' :: C ++ ['?'] from rfl,
        hrun]
  rw [hfull]
  by_cases hc0 : C = []
  · subst hc0
    unfold parseFinish
    rw [if_pos rfl]
    exact ⟨rfl, rfl, rfl, rfl⟩
  · unfold parseFinish
    rw [if_neg hc0, if_pos rfl]
    exact ⟨rfl, rfl, rfl, rfl⟩

/-- C6 witness: the universal part of `claim_C6_parse` applied to the concrete
line `FOO:BAR?`. -/
theorem claim_C6_witness :
    (∀ c ∈ ['F', 'O', 'O'], plainChar c) ∧ (∀ c ∈ ['B', 'A', 'R'], plainChar c) ∧
    (ParseScpiLine (String.mk (['F', 'O', 'O'] ++ ':' :: ['B', 'A', 'R'] ++ ['?']))).query = true ∧
    (ParseScpiLine (String.mk (['F', 'O', 'O'] ++ ':' :: ['B', 'A', 'R'] ++ ['?']))).subject = "FOO" ∧
    (ParseScpiLine (String.mk (['F', 'O', 'O'] ++ ':' :: ['B', 'A', 'R'] ++ ['?']))).cmd = "BAR" := by
  have h := (claim_C6_parse ['F', 'O', 'O'] ['B', 'A', 'R'] (by decide) (by decide)).1
  exact ⟨by decide, by decide, h.1, h.2.1, h.2.2.1⟩

/-! ## Claim C3 -/

/-- C3: from any state that is already armed, or in which no channel of the
device is enabled, START and SINGLE leave the state entirely unchanged, while
FORCE runs the full Arm sequence (`Start`) and ends armed. -/
theorem claim_C3_start_guards (dev : Device) (mc : Nat) (s : ServerState)
    (subject : String) (args : List String) (ch : Nat)
    (h : s.triggerArmed = true ∨ anyChannelOn mc s = false) :
    (dispatch dev mc s subject "START" false args ch).state = s ∧
    (dispatch dev mc s subject "SINGLE" false args ch).state = s ∧
    (dispatch dev mc s subject "FORCE" false args ch).state = Start s true ∧
    (dispatch dev mc s subject "FORCE" false args ch).state.triggerArmed = true := by
  refine ⟨?_, ?_, by simp [dispatch], by simp [dispatch, Start]⟩ <;>
    · rcases h with ha | hn
      · simp [dispatch, ha]
      · by_cases ha : s.triggerArmed = true
        · simp [dispatch, ha]
        · simp [dispatch, ha, hn]

/-- C3 witness: the guards at the concrete initial state (not armed, no
channel enabled) with a 2-channel device. -/
theorem claim_C3_witness :
    (initState.triggerArmed = true ∨ anyChannelOn 2 initState = false) ∧
    (dispatch devOk 2 initState "" "START" false [] 0).state = initState ∧
    (dispatch devOk 2 initState "" "SINGLE" false [] 0).state = initState ∧
    (dispatch devOk 2 initState "" "FORCE" false [] 0).state.triggerArmed = true := by
  have h := claim_C3_start_guards devOk 2 initState "" [] 0 (Or.inr (by decide))
  exact ⟨Or.inr (by decide), h.1, h.2.1, h.2.2.2⟩

/-! ## Claim C10 -/

/-- C10: any line the parser marks as a query is handled entirely inside the
query branch of the dispatcher and mutates no server state. -/
theorem claim_C10_query_frame (dev : Device) (mc : Nat) (s : ServerState)
    (line : String) (h : (ParseScpiLine line).query = true) :
    (processLine dev mc s line).state = s := by
  have hp : processLine dev mc s line
      = dispatch dev mc s (ParseScpiLine line).subject (ParseScpiLine line).cmd
          (ParseScpiLine line).query (ParseScpiLine line).args
          (extractChannelId (ParseScpiLine line).subject mc) := rfl
  rw [hp, h]
  unfold dispatch
  rw [if_pos rfl]
  split_ifs <;> rfl

/-- C10 witness: the query line `START?` does not arm the trigger or change
any state. -/
theorem claim_C10_witness :
    (ParseScpiLine "START?").query = true ∧
    (processLine devOk 2 initState "START?").state = initState := by
  exact ⟨by decide, claim_C10_query_frame devOk 2 initState "START?" (by decide)⟩

/-! ## Claim C5 -/

/-- C5 counterexample: the claim says every disarm (STOP) clears the oneShot
flag and that oneShot implies armed in every reachable state.  `Stop()` does
not touch `g_triggerOneShot`: after the reachable trace
`C1:ON`, `SINGLE`, `STOP` the state has `oneShot = true` and `armed = false`. -/
theorem claim_C5_counterexample :
    (runLines devOk 2 initState ["C1:ON", "SINGLE", "STOP"]).triggerOneShot = true ∧
    (runLines devOk 2 initState ["C1:ON", "SINGLE", "STOP"]).triggerArmed = false := by
  decide

/-- C5 (amended): a successful SINGLE admission ends armed with
`oneShot = true`, a successful START ends armed with `oneShot = false`, STOP
disarms but leaves `oneShot` unchanged (it is not cleared on disarm, so
`oneShot = true` does not imply `armed = true` after a STOP), and no other
command changes `oneShot`: whenever `oneShot` changes, the command was a
START or SINGLE that passed both admission checks. -/
theorem claim_C5_oneshot_lifecycle (dev : Device) (mc : Nat) (s : ServerState)
    (subject : String) (args : List String) (ch : Nat) :
    (s.triggerArmed = false → anyChannelOn mc s = true →
      (dispatch dev mc s subject "SINGLE" false args ch).state.triggerArmed = true ∧
      (dispatch dev mc s subject "SINGLE" false args ch).state.triggerOneShot = true) ∧
    (s.triggerArmed = false → anyChannelOn mc s = true →
      (dispatch dev mc s subject "START" false args ch).state.triggerArmed = true ∧
      (dispatch dev mc s subject "START" false args ch).state.triggerOneShot = false) ∧
    ((dispatch dev mc s subject "STOP" false args ch).state.triggerArmed = false ∧
     (dispatch dev mc s subject "STOP" false args ch).state.triggerOneShot = s.triggerOneShot) ∧
    (∀ cmd : String, ∀ query : Bool,
      (dispatch dev mc s subject cmd query args ch).state.triggerOneShot = s.triggerOneShot
      ∨ (query = false ∧ (cmd = "START" ∨ cmd = "SINGLE") ∧ s.triggerArmed = false
          ∧ anyChannelOn mc s = true
          ∧ (dispatch dev mc s subject cmd query args ch).state.triggerArmed = true)) := by
  refine ⟨?_, ?_, ?_, ?_⟩
  · intro ha hn
    constructor <;> simp [dispatch, ha, hn, Start]
  · intro ha hn
    constructor <;> simp [dispatch, ha, hn, Start]
  · constructor <;> simp [dispatch, Stop]
  · intro cmd query
    by_cases hq : query = true
    · subst hq
      left
      simp only [dispatch]
      rw [if_pos trivial]
      split_ifs <;> rfl
    · have hq0 : query = false := by
        cases query
        · rfl
        · exact absurd rfl hq
      subst hq0
      unfold dispatch
      rw [if_neg (by decide : ¬(false = true))]
      by_cases h1 : cmd = "EXIT"
      · rw [if_pos h1]; left; rfl
      rw [if_neg h1]
      by_cases h2 : cmd = "ON"
      · rw [if_pos h2]; left; simp [rearm_oneShot]
      rw [if_neg h2]
      by_cases h3 : cmd = "OFF"
      · rw [if_pos h3]; left; simp [rearm_oneShot]
      rw [if_neg h3]
      by_cases h4 : cmd = "OFFS" ∧ args.length = 1
      · rw [if_pos h4]; left; simp [rearm_oneShot]
      rw [if_neg h4]
      by_cases h5 : cmd = "ATTEN" ∧ args.length = 1
      · rw [if_pos h5]; left; simp [rearm_oneShot]
      rw [if_neg h5]
      by_cases h6 : cmd = "RANGE" ∧ args.length = 1
      · rw [if_pos h6]; left; simp [rearm_oneShot]
      rw [if_neg h6]
      by_cases h7 : cmd = "RATE" ∧ args.length = 1
      · rw [if_pos h7]; left; simp [rearm_oneShot]
      rw [if_neg h7]
      by_cases h8 : cmd = "DEPTH" ∧ args.length = 1
      · rw [if_pos h8]; left; simp [rearm_oneShot]
      rw [if_neg h8]
      by_cases h9 : cmd = "START" ∨ cmd = "SINGLE"
      · rw [if_pos h9]
        by_cases ha : s.triggerArmed = true
        · rw [if_pos ha]; left; rfl
        rw [if_neg ha]
        by_cases hn : anyChannelOn mc s = false
        · rw [if_pos hn]; left; rfl
        rw [if_neg hn]
        right
        exact ⟨rfl, h9, by simpa using ha, by simpa using hn, rfl⟩
      rw [if_neg h9]
      by_cases h10 : cmd = "FORCE"
      · rw [if_pos h10]; left; rfl
      rw [if_neg h10]
      by_cases h11 : cmd = "STOP"
      · rw [if_pos h11]; left; rfl
      rw [if_neg h11]
      by_cases h12 : subject = "TRIG"
      · rw [if_pos h12]
        by_cases d1 : cmd = "MODE" ∧ args.length = 1
        · rw [if_pos d1]
          by_cases e1 : args.getD 0 "" = "EDGE"
          · rw [if_pos e1]; left; rfl
          · rw [if_neg e1]; left; rfl
        rw [if_neg d1]
        by_cases d2 : cmd = "EDGE:DIR" ∧ args.length = 1
        · rw [if_pos d2]; left; simp [rearm_oneShot]
        rw [if_neg d2]
        by_cases d3 : cmd = "LEV" ∧ args.length = 1
        · rw [if_pos d3]; left; simp [rearm_oneShot]
        rw [if_neg d3]
        by_cases d4 : cmd = "SOU" ∧ args.length = 1
        · rw [if_pos d4]; left; simp [rearm_oneShot]
        rw [if_neg d4]
        by_cases d5 : cmd = "DELAY" ∧ args.length = 1
        · rw [if_pos d5]; left; simp [rearm_oneShot]
        rw [if_neg d5]
        left; rfl
      rw [if_neg h12]
      left; rfl

/-- C5 witness: the lifecycle at the concrete reachable state with channel 0
enabled (reached from the initial state by `C1:ON`). -/
theorem claim_C5_witness :
    ((processLine devOk 2 initState "C1:ON").state.triggerArmed = false ∧
     anyChannelOn 2 (processLine devOk 2 initState "C1:ON").state = true) ∧
    (dispatch devOk 2 (processLine devOk 2 initState "C1:ON").state "" "SINGLE" false [] 0).state.triggerOneShot = true ∧
    (dispatch devOk 2 (processLine devOk 2 initState "C1:ON").state "" "START" false [] 0).state.triggerOneShot = false ∧
    (dispatch devOk 2 (processLine devOk 2 initState "C1:ON").state "" "STOP" false [] 0).state.triggerArmed = false := by
  have h := claim_C5_oneshot_lifecycle devOk 2 (processLine devOk 2 initState "C1:ON").state "" [] 0
  exact ⟨⟨by decide, by decide⟩, (h.1 (by decide) (by decide)).2,
    (h.2.1 (by decide) (by decide)).2, h.2.2.1.1⟩

/-! ## Claim C4 -/

/-- The live configuration fields captured by the arm snapshot. -/
def liveCfg (s : ServerState) : Nat × Int × (Nat → Bool) :=
  (s.memDepth, s.sampleInterval, s.channelOn)

/-- The arm snapshot fields. -/
def armCfg (s : ServerState) : Nat × Int × (Nat → Bool) :=
  (s.captureMemDepth, s.sampleIntervalDuringArm, s.channelOnDuringArm)

/-- An armed state whose snapshot is stale relative to the live configuration,
used to refute claim C4 on the TRIG:MODE handler. -/
def staleArmedState : ServerState :=
  { initState with triggerArmed := true, memDepth := 5000, captureMemDepth := 1000 }

/-- The mutating commands of the re-arm table, with the argument arity their
handlers require — excluding `TRIG:MODE`, whose handler performs no re-arm. -/
def RearmCmd (subject cmd : String) (args : List String) : Prop :=
  (cmd = "ON" ∨ cmd = "OFF")
  ∨ ((cmd = "OFFS" ∨ cmd = "ATTEN" ∨ cmd = "RANGE" ∨ cmd = "RATE" ∨ cmd = "DEPTH")
      ∧ args.length = 1)
  ∨ (subject = "TRIG" ∧ (cmd = "EDGE:DIR" ∨ cmd = "LEV" ∨ cmd = "SOU" ∨ cmd = "DELAY")
      ∧ args.length = 1)

/-- C4 counterexample: the claim includes `TRIG:MODE` among the commands that
re-arm when armed, but the TRIG:MODE handler has no re-arm call: processing
`TRIG:MODE EDGE` in an armed state with a stale snapshot leaves the snapshot
stale (captureMemDepth 1000 while memDepth is 5000), instead of refreshing it
to the live configuration. -/
theorem claim_C4_counterexample :
    staleArmedState.triggerArmed = true ∧
    (dispatch devOk 2 staleArmedState "TRIG" "MODE" false ["EDGE"] 0).state.captureMemDepth = 1000 ∧
    (dispatch devOk 2 staleArmedState "TRIG" "MODE" false ["EDGE"] 0).state.memDepth = 5000 := by
  decide

/-- C4 (amended): for every mutating command of the re-arm table other than
`TRIG:MODE` (channel ON/OFF, OFFS, ATTEN, RANGE, RATE, DEPTH, and the
TRIG:EDGE:DIR, TRIG:LEV, TRIG:SOU, TRIG:DELAY setters), if the trigger is
armed before the command then the full Arm sequence is re-issued afterwards,
so the arm snapshot after the command equals the new live configuration; and
if the snapshot was in sync before, the snapshot changed exactly when the
live configuration changed. -/
theorem claim_C4_rearm (dev : Device) (mc : Nat) (s : ServerState)
    (subject cmd : String) (args : List String) (ch : Nat)
    (hc : RearmCmd subject cmd args) (ha : s.triggerArmed = true) :
    armCfg (dispatch dev mc s subject cmd false args ch).state
      = liveCfg (dispatch dev mc s subject cmd false args ch).state ∧
    (armCfg s = liveCfg s →
      (armCfg (dispatch dev mc s subject cmd false args ch).state = armCfg s
        ↔ liveCfg (dispatch dev mc s subject cmd false args ch).state = liveCfg s)) := by
  have h1 : armCfg (dispatch dev mc s subject cmd false args ch).state
      = liveCfg (dispatch dev mc s subject cmd false args ch).state := by
    rcases hc with h | ⟨h, hl⟩ | ⟨hs, h, hl⟩
    · rcases h with rfl | rfl <;>
        simp [dispatch, rearm, Start, armCfg, liveCfg, ha]
    · rcases h with rfl | rfl | rfl | rfl | rfl <;>
        simp [dispatch, rearm, Start, armCfg, liveCfg, ha, hl]
    · subst hs
      rcases h with rfl | rfl | rfl | rfl <;>
        simp [dispatch, rearm, Start, armCfg, liveCfg, ha, hl]
  refine ⟨h1, fun hEq => ⟨fun h2 => ?_, fun h2 => ?_⟩⟩
  · rw [← h1, h2, hEq]
  · rw [h1, h2]
    exact hEq.symm

/-- C4 witness: an armed state, the ON command: afterwards the snapshot equals
the live configuration. -/
theorem claim_C4_witness :
    RearmCmd "C1" "ON" [] ∧
    ({ initState with triggerArmed := true } : ServerState).triggerArmed = true ∧
    armCfg (dispatch devOk 2 { initState with triggerArmed := true } "C1" "ON" false [] 0).state
      = liveCfg (dispatch devOk 2 { initState with triggerArmed := true } "C1" "ON" false [] 0).state := by
  exact ⟨Or.inl (Or.inl rfl), rfl,
    (claim_C4_rearm devOk 2 { initState with triggerArmed := true } "C1" "ON" [] 0
      (Or.inl (Or.inl rfl)) rfl).1⟩

/-! ## Claim C7 -/

/-- C7 counterexample: with `memoryDepth = 1000`, `sampleIntervalFs = 1000`,
`delayFs = 200000` the position the code computes is
`1000/2 * 1000 - 200000 = 300000` femtoseconds, not the `-300000` the claim
states. -/
theorem claim_C7_counterexample :
    trigDelayPositionFs 1000 1000 200000 = 300000 ∧
    trigDelayPositionFs 1000 1000 200000 ≠ -300000 := by
  decide

/-- C7 (amended): TRIG:DELAY stores the requested delay, computes the absolute
trigger buffer position as `memoryDepth/2 * sampleIntervalFs - delayFs` in
exact integer arithmetic, programs it on the device, reads back the actual
position and stores actual minus requested (in seconds) as the residual; at
the claimed inputs the computed position is `+300000` femtoseconds (the claim
said `-300000`). -/
theorem claim_C7_delay (dev : Device) (mc : Nat) (s : ServerState) (ch : Nat)
    (a : String) :
    (dispatch dev mc s "TRIG" "DELAY" false [a] ch).state.triggerDelay
      = toInt64 (stoullNat a) ∧
    (dispatch dev mc s "TRIG" "DELAY" false [a] ch).state.triggerDeltaSec
      = dev.trigPosActual
          ((trigDelayPositionFs s.memDepth s.sampleInterval (toInt64 (stoullNat a)) : ℚ)
            * SECONDS_PER_FS)
        - (trigDelayPositionFs s.memDepth s.sampleInterval (toInt64 (stoullNat a)) : ℚ)
            * SECONDS_PER_FS ∧
    trigDelayPositionFs 1000 1000 200000 = 300000 := by
  refine ⟨?_, ?_, by decide⟩ <;>
    · by_cases harm : s.triggerArmed = true <;>
        simp [dispatch, rearm, Start, harm]

/-! ## Claim C8 -/

/-- C8: the resulting server state of any dispatched command is independent of
which device calls succeed or fail (devices agreeing on the read-back trigger
position yield identical states: failures are logged, never rolled back); and
even on a device on which every call fails, RATE still stores the derived
sample interval, DEPTH still stores the depth and dirty flag, ON/OFF still
store the channel flag, TRIG:LEV still stores the level, TRIG:SOU still
stores the source channel, and TRIG:DELAY still stores the delay. -/
theorem claim_C8_no_rollback (mc : Nat) (s : ServerState) (subject cmd : String)
    (query : Bool) (args : List String) (ch : Nat) (d1 d2 : Device)
    (hp : d1.trigPosActual = d2.trigPosActual) :
    (dispatch d1 mc s subject cmd query args ch).state
      = (dispatch d2 mc s subject cmd query args ch).state ∧
    (∀ a : String, (dispatch devFail mc s subject "RATE" false [a] ch).state.sampleInterval
      = cppDivInt FS_PER_SECOND (toInt64 (stoullNat a))) ∧
    (∀ a : String, (dispatch devFail mc s subject "DEPTH" false [a] ch).state.memDepth
        = toUInt64 (stoullNat a)
      ∧ (dispatch devFail mc s subject "DEPTH" false [a] ch).state.memDepthChanged = true) ∧
    (dispatch devFail mc s subject "ON" false args ch).state.channelOn ch = true ∧
    (dispatch devFail mc s subject "OFF" false args ch).state.channelOn ch = true ∧
    (∀ a : String, (dispatch devFail mc s "TRIG" "LEV" false [a] ch).state.triggerVoltage
      = stodQ a) ∧
    (∀ a : String, (dispatch devFail mc s "TRIG" "SOU" false [a] ch).state.triggerChannel
      = trigSourceChannel a) ∧
    (∀ a : String, (dispatch devFail mc s "TRIG" "DELAY" false [a] ch).state.triggerDelay
      = toInt64 (stoullNat a)) := by
  refine ⟨?_, ?_, ?_, ?_, ?_, ?_, ?_, ?_⟩
  · by_cases hq : query = true
    · subst hq
      rw [dispatch_query_state, dispatch_query_state]
    · have hq0 : query = false := by
        cases query
        · rfl
        · exact absurd rfl hq
      subst hq0
      unfold dispatch
      rw [if_neg (by decide : ¬(false = true)), if_neg (by decide : ¬(false = true))]
      by_cases h1 : cmd = "EXIT"
      · rw [if_pos h1, if_pos h1]
      rw [if_neg h1, if_neg h1]
      by_cases h2 : cmd = "ON"
      · rw [if_pos h2, if_pos h2]; exact rearm_state_eq _ _ _
      rw [if_neg h2, if_neg h2]
      by_cases h3 : cmd = "OFF"
      · rw [if_pos h3, if_pos h3]; exact rearm_state_eq _ _ _
      rw [if_neg h3, if_neg h3]
      by_cases h4 : cmd = "OFFS" ∧ args.length = 1
      · rw [if_pos h4, if_pos h4]; exact rearm_state_eq _ _ _
      rw [if_neg h4, if_neg h4]
      by_cases h5 : cmd = "ATTEN" ∧ args.length = 1
      · rw [if_pos h5, if_pos h5]; exact rearm_state_eq _ _ _
      rw [if_neg h5, if_neg h5]
      by_cases h6 : cmd = "RANGE" ∧ args.length = 1
      · rw [if_pos h6, if_pos h6]; exact rearm_state_eq _ _ _
      rw [if_neg h6, if_neg h6]
      by_cases h7 : cmd = "RATE" ∧ args.length = 1
      · rw [if_pos h7, if_pos h7]; exact rearm_state_eq _ _ _
      rw [if_neg h7, if_neg h7]
      by_cases h8 : cmd = "DEPTH" ∧ args.length = 1
      · rw [if_pos h8, if_pos h8]; exact rearm_state_eq _ _ _
      rw [if_neg h8, if_neg h8]
      by_cases h9 : cmd = "START" ∨ cmd = "SINGLE"
      · rw [if_pos h9, if_pos h9]
      rw [if_neg h9, if_neg h9]
      by_cases h10 : cmd = "FORCE"
      · rw [if_pos h10, if_pos h10]
      rw [if_neg h10, if_neg h10]
      by_cases h11 : cmd = "STOP"
      · rw [if_pos h11, if_pos h11]
      rw [if_neg h11, if_neg h11]
      by_cases h12 : subject = "TRIG"
      · rw [if_pos h12, if_pos h12]
        by_cases d1 : cmd = "MODE" ∧ args.length = 1
        · rw [if_pos d1, if_pos d1]
          by_cases e1 : args.getD 0 "" = "EDGE"
          · rw [if_pos e1, if_pos e1]
          · rw [if_neg e1, if_neg e1]
        rw [if_neg d1, if_neg d1]
        by_cases d2 : cmd = "EDGE:DIR" ∧ args.length = 1
        · rw [if_pos d2, if_pos d2]; exact rearm_state_eq _ _ _
        rw [if_neg d2, if_neg d2]
        by_cases d3 : cmd = "LEV" ∧ args.length = 1
        · rw [if_pos d3, if_pos d3]; exact rearm_state_eq _ _ _
        rw [if_neg d3, if_neg d3]
        by_cases d4 : cmd = "SOU" ∧ args.length = 1
        · rw [if_pos d4, if_pos d4]; exact rearm_state_eq _ _ _
        rw [if_neg d4, if_neg d4]
        by_cases d5 : cmd = "DELAY" ∧ args.length = 1
        · rw [if_pos d5, if_pos d5, hp]; exact rearm_state_eq _ _ _
        rw [if_neg d5, if_neg d5]
      rw [if_neg h12, if_neg h12]
  · intro a
    by_cases harm : s.triggerArmed = true <;>
      simp [dispatch, rearm, Start, harm]
  · intro a
    refine ⟨?_, ?_⟩ <;>
      · by_cases harm : s.triggerArmed = true <;>
          simp [dispatch, rearm, Start, harm]
  · by_cases harm : s.triggerArmed = true <;>
      simp [dispatch, rearm, Start, mapSet, harm]
  · by_cases harm : s.triggerArmed = true <;>
      simp [dispatch, rearm, Start, mapSet, harm]
  · intro a
    by_cases harm : s.triggerArmed = true <;>
      simp [dispatch, rearm, Start, harm]
  · intro a
    by_cases harm : s.triggerArmed = true <;>
      simp [dispatch, rearm, Start, harm]
  · intro a
    by_cases harm : s.triggerArmed = true <;>
      simp [dispatch, rearm, Start, harm]

/-- C8 witness: concrete instances with the all-succeeding and the
all-failing device. -/
theorem claim_C8_witness :
    devOk.trigPosActual = devFail.trigPosActual ∧
    (dispatch devOk 2 initState "" "DEPTH" false ["65536"] 0).state
      = (dispatch devFail 2 initState "" "DEPTH" false ["65536"] 0).state ∧
    (dispatch devFail 2 initState "" "RATE" false ["100000000"] 0).state.sampleInterval
      = cppDivInt FS_PER_SECOND (toInt64 (stoullNat "100000000")) := by
  refine ⟨rfl, ?_, ?_⟩
  · exact (claim_C8_no_rollback 2 initState "" "DEPTH" false ["65536"] 0 devOk devFail rfl).1
  · exact (claim_C8_no_rollback 2 initState "" "RATE" false ["100000000"] 0 devOk devFail
      rfl).2.1 "100000000"

end Wfm
